import Mathlib

/-!
Shallow embedding of `src/evil_grumbot.py` (the Evil-Grumbot Minecraft status
bot).  Pure logic (registry, resolver, composer) is translated directly; the
network-facing parts (`JavaServer.lookup`, `status()`, `query()`) are modelled
by an explicit per-invocation environment (`Env`) recording the outcome of
each external call, and Python exceptions are modelled with `Except` /
`Option` results.  `compose_response` mutates its `player_list` argument in
place (Python `list.append`), so its embedding returns the final state of
that list alongside the composed string.
-/

/-- `MAX_RETRIES = 5` from the source. -/
def MAX_RETRIES : Nat := 5

/-- The `Server` class: name, ip, bound channel ids, secrecy flag, and
whether the enhanced query protocol is supported. -/
structure Server where
  name : String
  ip : String
  channels : List Int
  secret : Bool
  supports_querying : Bool
deriving DecidableEq, Repr

/-- One entry of a basic status reply's sampled player list (an object with a
`.name` attribute in `mcstatus`). -/
structure SamplePlayer where
  name : String
deriving DecidableEq, Repr

/-- The `players` part of a basic status reply: online count, max count and
the sampled player list. -/
structure Players where
  online : Nat
  max : Nat
  sample : List SamplePlayer
deriving DecidableEq, Repr

/-- A basic status reply (`server_lookup.status()` result). -/
structure Status where
  players : Players
deriving DecidableEq, Repr

/-- The first registry entry (`Server("Survival", ...)`). -/
def survival : Server :=
  ⟨"Survival", "173.233.142.94:25565",
   [930585547842404372, 930322945040072734], false, false⟩

/-- The second registry entry (`Server("Events", ...)`). -/
def events : Server :=
  ⟨"Events", "173.233.142.10:25565",
   [1241016401502928967, 1237006920863453225], false, false⟩

/-- The third registry entry (`Server("Creative", ...)`). -/
def creative : Server :=
  ⟨"Creative", "173.233.142.2:25565", [930324293840171028], false, false⟩

/-- The fourth registry entry (`Server("Testing", ...)`, secret). -/
def testing : Server :=
  ⟨"Testing", "173.233.142.3:25565", [646113723550924849], true, false⟩

/-- The fifth registry entry (`Server("Events Building", ...)`, secret, no
bound channels). -/
def events_building : Server :=
  ⟨"Events Building", "140.238.96.87:25565", [], true, false⟩

/-- The module-level `servers` list, in source order. -/
def servers : List Server :=
  [survival, events, creative, testing, events_building]

/-- The `for s in servers: if channel_id in s.channels: return s` scan,
generalised over the registry list for the inductive proofs. -/
def find_server_by_channel : List Server → Int → Option Server
  | [], _ => none
  | s :: rest, channel_id =>
    if channel_id ∈ s.channels then some s
    else find_server_by_channel rest channel_id

/-- `get_server_from_channel`: first registry entry whose `channels` contains
the id; `none` models the `raise ValueError` when no entry matches. -/
def get_server_from_channel (channel_id : Int) : Option Server :=
  find_server_by_channel servers channel_id

/-- The `for s in servers: if s.name == server: return s` scan, generalised
over the registry list. -/
def find_server_by_name : List Server → String → Option Server
  | [], _ => none
  | s :: rest, server =>
    if s.name = server then some s else find_server_by_name rest server

/-- `get_server`: first registry entry with the given name; `none` models the
`raise ValueError` when no entry matches. -/
def get_server (server : String) : Option Server :=
  find_server_by_name servers server

/-- Outcome of one external protocol call: a Python `socket.timeout`, or any
other exception (with its description). -/
inductive FetchErr where
  | timeout
  | other (msg : String)
deriving DecidableEq, Repr

/-- Per-invocation oracle for the network-facing calls of one command
invocation: the outcome of `JavaServer.lookup(server.ip)` in
`get_server_info`, the outcome of the i-th `server_lookup.status()` attempt,
and the combined outcome of the `get_players_query` call (its own lookup plus
`query()`). -/
structure Env where
  lookupResult : Except String Unit
  statusResults : Nat → Except FetchErr Status
  queryResult : Except FetchErr (List String)

/-- The `while count < MAX_RETRIES` retry loop of `get_server_info`,
instrumented with the number of `status()` attempts performed: each failed
attempt increments `count` and retries; a success returns immediately;
falling off the loop yields `none` (Python implicit `return None`). -/
def status_loop (att : Nat → Except FetchErr Status) (count : Nat) :
    Option Status × Nat :=
  if count < MAX_RETRIES then
    match att count with
    | .ok s => (some s, 1)
    | .error _ =>
      let r := status_loop att (count + 1)
      (r.1, r.2 + 1)
  else (none, 0)
termination_by MAX_RETRIES - count

/-- `get_server_info`: `JavaServer.lookup(server.ip)` runs once, before the
retry loop and outside any handler, so a lookup error propagates
(`Except.error`); otherwise the retry loop's result is returned. -/
def get_server_info (env : Env) (_server : Server) :
    Except String (Option Status) :=
  match env.lookupResult with
  | .error e => .error e
  | .ok _ => .ok (status_loop env.statusResults 0).1

/-- `get_players_query`: single-attempt enhanced query (lookup plus
`query().players.names`); any exception propagates to the caller. -/
def get_players_query (env : Env) (_server : Server) :
    Except FetchErr (List String) :=
  env.queryResult

/-- `compose_response`.  Returns the composed message together with the final
state of the caller's `player_list` (which the Python code mutates via
`append`). -/
def compose_response (server : Server) (status : Status)
    (player_list : List String) : String × List String :=
  let server_name := "**Spooncraft " ++ server.name ++ " Server**\n"
  let player_count := status.players.online
  let max_count := status.players.max
  if player_count = 0 then
    (server_name ++ "**No online players**", player_list)
  else
    let player_list :=
      if player_list.length = 0 ∧ player_count ≥ 1 then
        player_list ++ ["Anonymous Player"]
      else if player_list.length < player_count then
        player_list ++ ["..."]
      else player_list
    let players_str := String.intercalate ", " player_list
    (server_name ++ "**Online players (" ++ toString player_count ++ "/" ++
       toString max_count ++ "):**\n" ++ "```" ++ players_str ++ "```",
     player_list)

/-- Outcome of one `send_data` invocation: a followup reply with a message,
or an exception escaping the handler. -/
inductive HandlerResult where
  | reply (msg : String)
  | raised (e : String)
deriving DecidableEq, Repr

/-- Whether a handler outcome is a user-visible textual reply. -/
def HandlerResult.isReply : HandlerResult → Bool
  | .reply _ => true
  | .raised _ => false

/-- The body of `send_data` after the server has been selected: fetch status
(lookup errors propagate), reply with the generic error on `None`, reply
immediately on zero online players, otherwise build the player list — the
enhanced query is attempted only when supported, with only `socket.timeout`
caught (leaving `player_list` empty) — falling back to the basic status
sample with entries named "Anonymous Player" excluded, then compose. -/
def handle_with_server (env : Env) (srv : Server) : HandlerResult :=
  match get_server_info env srv with
  | .error e => .raised e
  | .ok none => .reply "**An unexpected error occurred**"
  | .ok (some status) =>
    if status.players.online = 0 then
      .reply (compose_response srv status []).1
    else
      let step : Except String (List String) :=
        if srv.supports_querying then
          match get_players_query env srv with
          | .ok l => .ok l
          | .error .timeout => .ok []
          | .error (.other e) => .error e
        else .ok []
      match step with
      | .error e => .raised e
      | .ok pl =>
        let player_list :=
          if pl.length = 0 then
            (status.players.sample.filter
              (fun i => i.name ≠ "Anonymous Player")).map SamplePlayer.name
          else pl
        .reply (compose_response srv status player_list).1

/-- `send_data`: resolve the server ("Default" resolves by channel with
`ValueError` caught and turned into a guidance reply; an explicit name
resolves by `get_server`, whose `ValueError` is not caught), then run the
per-server body. -/
def send_data (env : Env) (server : String) (channel_id : Int) :
    HandlerResult :=
  if server = "Default" then
    match get_server_from_channel channel_id with
    | none =>
      .reply "**You must either select a server or be in a recognised channel**"
    | some srv => handle_with_server env srv
  else
    match get_server server with
    | none => .raised "ValueError"
    | some srv => handle_with_server env srv

/-! ## Lemmas about the retry loop -/

/-- If every attempt from `count` on (below the retry bound) fails, the loop
returns `none` after exactly the remaining number of attempts. -/
theorem status_loop_all_fail (att : Nat → Except FetchErr Status) :
    ∀ n count, MAX_RETRIES - count = n →
    (∀ i, count ≤ i → i < MAX_RETRIES → ∃ e, att i = .error e) →
    status_loop att count = (none, n) := by
  intro n
  induction n with
  | zero =>
    intro count hc _
    rw [status_loop]
    simp only [if_neg (by omega : ¬ count < MAX_RETRIES)]
  | succ n ih =>
    intro count hc hfail
    have hlt : count < MAX_RETRIES := by omega
    obtain ⟨e, he⟩ := hfail count le_rfl hlt
    have hrec := ih (count + 1) (by omega)
      (fun i hi1 hi2 => hfail i (by omega) hi2)
    rw [status_loop]
    simp only [if_pos hlt, he, hrec]

/-- If the first success from `count` is at attempt `k`, the loop returns the
successful status immediately with `k - count + 1` attempts performed. -/
theorem status_loop_first_ok (att : Nat → Except FetchErr Status) :
    ∀ n count k s, k - count = n → count ≤ k → k < MAX_RETRIES →
    (∀ i, count ≤ i → i < k → ∃ e, att i = .error e) →
    att k = .ok s →
    status_loop att count = (some s, n + 1) := by
  intro n
  induction n with
  | zero =>
    intro count k s hn hck hk hfail hok
    have hkc : k = count := by omega
    subst hkc
    rw [status_loop]
    simp only [if_pos hk, hok]
  | succ n ih =>
    intro count k s hn hck hk hfail hok
    have hlt : count < MAX_RETRIES := by omega
    obtain ⟨e, he⟩ := hfail count le_rfl (by omega)
    have hrec := ih (count + 1) k s (by omega) (by omega) hk
      (fun i h1 h2 => hfail i (by omega) h2) hok
    rw [status_loop]
    simp only [if_pos hlt, he, hrec]

/-! ## Lemmas about the registry scan -/

/-- The registry scan misses exactly when no entry's channel list contains
the id. -/
theorem find_server_by_channel_none_iff (l : List Server) (cid : Int) :
    find_server_by_channel l cid = none ↔ ∀ s ∈ l, cid ∉ s.channels := by
  induction l with
  | nil => simp [find_server_by_channel]
  | cons a rest ih =>
    by_cases ha : cid ∈ a.channels
    · simp [find_server_by_channel, ha]
    · simp [find_server_by_channel, ha, ih]

/-- A hit of the registry scan is the first matching entry in list order. -/
theorem find_server_by_channel_some (l : List Server) (cid : Int)
    (s : Server) (h : find_server_by_channel l cid = some s) :
    cid ∈ s.channels ∧
    ∃ l1 l2, l = l1 ++ s :: l2 ∧ ∀ t ∈ l1, cid ∉ t.channels := by
  induction l with
  | nil => simp [find_server_by_channel] at h
  | cons a rest ih =>
    by_cases ha : cid ∈ a.channels
    · rw [find_server_by_channel, if_pos ha] at h
      obtain rfl : a = s := by injection h
      exact ⟨ha, [], rest, rfl, by simp⟩
    · rw [find_server_by_channel, if_neg ha] at h
      obtain ⟨hc, l1, l2, hl, hall⟩ := ih h
      refine ⟨hc, a :: l1, l2, by simp [hl], ?_⟩
      intro t ht
      rcases List.mem_cons.mp ht with h1 | h1
      · subst h1
        exact ha
      · exact hall t h1

/-! ## Lemmas about the composer's four branches -/

/-- Zero online players: fixed message, `player_list` untouched. -/
theorem compose_zero (server : Server) (status : Status) (l : List String)
    (h : status.players.online = 0) :
    compose_response server status l =
      ("**Spooncraft " ++ server.name ++ " Server**\n" ++
        "**No online players**", l) := by
  simp [compose_response, h]

/-- Empty list with at least one player online: the sentinel is appended. -/
theorem compose_empty (server : Server) (status : Status)
    (h : status.players.online ≠ 0) :
    compose_response server status [] =
      ("**Spooncraft " ++ server.name ++ " Server**\n" ++
        "**Online players (" ++ toString status.players.online ++ "/" ++
        toString status.players.max ++ "):**\n" ++ "```" ++
        String.intercalate ", " ["Anonymous Player"] ++ "```",
       ["Anonymous Player"]) := by
  simp [compose_response, h, Nat.one_le_iff_ne_zero]

/-- Non-empty list shorter than the online count: "..." is appended. -/
theorem compose_incomplete (server : Server) (status : Status)
    (l : List String) (h : status.players.online ≠ 0) (hne : l ≠ [])
    (hlt : l.length < status.players.online) :
    compose_response server status l =
      ("**Spooncraft " ++ server.name ++ " Server**\n" ++
        "**Online players (" ++ toString status.players.online ++ "/" ++
        toString status.players.max ++ "):**\n" ++ "```" ++
        String.intercalate ", " (l ++ ["..."]) ++ "```",
       l ++ ["..."]) := by
  simp [compose_response, h, hne, hlt, List.length_eq_zero]

/-- Non-empty list at least as long as the online count: list unchanged. -/
theorem compose_full (server : Server) (status : Status)
    (l : List String) (h : status.players.online ≠ 0) (hne : l ≠ [])
    (hge : status.players.online ≤ l.length) :
    compose_response server status l =
      ("**Spooncraft " ++ server.name ++ " Server**\n" ++
        "**Online players (" ++ toString status.players.online ++ "/" ++
        toString status.players.max ++ "):**\n" ++ "```" ++
        String.intercalate ", " l ++ "```", l) := by
  simp [compose_response, h, hne, List.length_eq_zero, Nat.not_lt.mpr hge]

/-! ## Claims -/

/-- C1: when the address lookup succeeds, if every `status()` attempt fails
then `get_server_info` performs exactly `MAX_RETRIES = 5` attempts and
returns `None`; if attempt `k` is the first success, the status is returned
immediately after exactly `k + 1` attempts. -/
theorem get_server_info_retry_bound (env : Env) (srv : Server)
    (hlk : env.lookupResult = .ok ()) :
    ((∀ i, i < MAX_RETRIES → ∃ e, env.statusResults i = .error e) →
       get_server_info env srv = .ok none ∧
       (status_loop env.statusResults 0).2 = 5) ∧
    (∀ k s, k < MAX_RETRIES →
       (∀ i, i < k → ∃ e, env.statusResults i = .error e) →
       env.statusResults k = .ok s →
       get_server_info env srv = .ok (some s) ∧
       (status_loop env.statusResults 0).2 = k + 1) := by
  constructor
  · intro hfail
    have h := status_loop_all_fail env.statusResults MAX_RETRIES 0 rfl
      (fun i _ hi => hfail i hi)
    unfold get_server_info
    rw [hlk, h]
    exact ⟨rfl, rfl⟩
  · intro k s hk hfail hok
    have h := status_loop_first_ok env.statusResults k 0 k s (by omega)
      (Nat.zero_le k) hk (fun i _ hi => hfail i hi) hok
    unfold get_server_info
    rw [hlk, h]
    exact ⟨rfl, rfl⟩

/-- A concrete environment in which every external call times out. -/
def env_all_timeout : Env :=
  ⟨.ok (), fun _ => .error .timeout, .error .timeout⟩

/-- Witness for C1: with every attempt timing out, `get_server_info` returns
`None` after exactly 5 attempts. -/
theorem get_server_info_retry_bound_witness :
    env_all_timeout.lookupResult = .ok () ∧
    get_server_info env_all_timeout survival = .ok none ∧
    (status_loop env_all_timeout.statusResults 0).2 = 5 := by
  have h := (get_server_info_retry_bound env_all_timeout survival rfl).1
    (fun i _ => ⟨.timeout, rfl⟩)
  exact ⟨rfl, h.1, h.2⟩

/-- C10: the address lookup happens once, before the retry loop and outside
any exception handler, so a lookup error propagates to the caller instead of
being retried or turned into `None`. -/
theorem get_server_info_lookup_propagates (env : Env) (srv : Server)
    (e : String) (h : env.lookupResult = .error e) :
    get_server_info env srv = .error e := by
  unfold get_server_info
  rw [h]

/-- C2 counterexample: `compose_response` is not side-effect-free.  With 2
players online and an empty list, the call leaves the sentinel in the
caller's list, and a second call on the same (now mutated) list produces a
different message than the first call did. -/
theorem compose_response_not_pure_counterexample :
    (compose_response survival ⟨⟨2, 10, []⟩⟩ []).2 ≠ ([] : List String) ∧
    (compose_response survival ⟨⟨2, 10, []⟩⟩
        (compose_response survival ⟨⟨2, 10, []⟩⟩ []).2).1 ≠
      (compose_response survival ⟨⟨2, 10, []⟩⟩ []).1 := by
  constructor
  · decide
  · decide

/-- C2 amended: `compose_response` is deterministic in its input values (it
is a function of them), but it is not free of side effects on its `names`
argument: with a nonzero online count it appends "Anonymous Player" to an
empty list and "..." to a non-empty list shorter than the online count,
leaving the list unchanged otherwise. -/
theorem compose_response_deterministic_but_mutating (server : Server)
    (status : Status) (l : List String) :
    (compose_response server status l).2 =
      (if status.players.online = 0 then l
       else if l = [] then l ++ ["Anonymous Player"]
       else if l.length < status.players.online then l ++ ["..."]
       else l) := by
  rcases Nat.eq_zero_or_pos status.players.online with h0 | h0
  · rw [compose_zero server status l h0]
    simp [h0]
  · have h0n : status.players.online ≠ 0 := by omega
    by_cases hl : l = []
    · subst hl
      rw [compose_empty server status h0n]
      simp [h0n]
    · by_cases hlt : l.length < status.players.online
      · rw [compose_incomplete server status l h0n hl hlt]
        simp [h0n, hl, hlt]
      · rw [compose_full server status l h0n hl (by omega)]
        simp [h0n, hl, hlt]

/-- C4: with zero online players the composer emits the header plus the
fixed "No online players" line, the output equals the output on the empty
list (so it is independent of `names`), and the list is untouched. -/
theorem compose_response_zero_online (server : Server) (status : Status)
    (l : List String) (h : status.players.online = 0) :
    (compose_response server status l).1 =
      "**Spooncraft " ++ server.name ++ " Server**\n" ++
        "**No online players**" ∧
    (compose_response server status l).1 =
      (compose_response server status []).1 ∧
    (compose_response server status l).2 = l := by
  rw [compose_zero server status l h, compose_zero server status [] h]
  exact ⟨rfl, rfl, rfl⟩

/-- Witness for C4 at a concrete zero-online status. -/
theorem compose_response_zero_online_witness :
    (Status.mk ⟨0, 10, []⟩).players.online = 0 ∧
    (compose_response survival ⟨⟨0, 10, []⟩⟩ ["Alice"]).1 =
      "**Spooncraft " ++ survival.name ++ " Server**\n" ++
        "**No online players**" ∧
    (compose_response survival ⟨⟨0, 10, []⟩⟩ ["Alice"]).2 = ["Alice"] := by
  refine ⟨rfl, ?_, ?_⟩
  · exact (compose_response_zero_online survival ⟨⟨0, 10, []⟩⟩ ["Alice"] rfl).1
  · exact (compose_response_zero_online survival ⟨⟨0, 10, []⟩⟩ ["Alice"]
      rfl).2.2

/-- C5: empty names with at least one player online yields exactly the
single sentinel entry "Anonymous Player" and no ellipsis. -/
theorem compose_response_empty_names_sentinel (server : Server)
    (status : Status) (h : 1 ≤ status.players.online) :
    (compose_response server status []).2 = ["Anonymous Player"] ∧
    (compose_response server status []).1 =
      "**Spooncraft " ++ server.name ++ " Server**\n" ++
        "**Online players (" ++ toString status.players.online ++ "/" ++
        toString status.players.max ++ "):**\n" ++ "```" ++
        "Anonymous Player" ++ "```" := by
  rw [compose_empty server status (by omega)]
  exact ⟨rfl, rfl⟩

/-- Witness for C5 at a concrete status with 3 players online. -/
theorem compose_response_empty_names_sentinel_witness :
    1 ≤ (Status.mk ⟨3, 20, []⟩).players.online ∧
    (compose_response survival ⟨⟨3, 20, []⟩⟩ []).2 = ["Anonymous Player"] := by
  refine ⟨by decide, ?_⟩
  exact (compose_response_empty_names_sentinel survival ⟨⟨3, 20, []⟩⟩
    (by decide)).1

/-- C6: a non-empty names list shorter than the online count is joined with
", " and gets a literal "..." entry appended; a list at least as long as the
online count gets nothing appended. -/
theorem compose_response_ellipsis (server : Server) (status : Status)
    (l : List String) :
    (l ≠ [] → l.length < status.players.online →
      (compose_response server status l).2 = l ++ ["..."] ∧
      (compose_response server status l).1 =
        "**Spooncraft " ++ server.name ++ " Server**\n" ++
          "**Online players (" ++ toString status.players.online ++ "/" ++
          toString status.players.max ++ "):**\n" ++ "```" ++
          String.intercalate ", " (l ++ ["..."]) ++ "```") ∧
    (status.players.online ≤ l.length →
      (compose_response server status l).2 = l) := by
  constructor
  · intro hne hlt
    rw [compose_incomplete server status l (by omega) hne hlt]
    exact ⟨rfl, rfl⟩
  · intro hge
    rcases Nat.eq_zero_or_pos status.players.online with h0 | h0
    · rw [compose_zero server status l h0]
    · have hne : l ≠ [] := by
        intro hl
        subst hl
        simp at hge
        omega
      rw [compose_full server status l (by omega) hne hge]

/-- Witness for C6: the spec's end-to-end scenario 2 input,
`["Alice", "Bob"]` with 3 players online. -/
theorem compose_response_ellipsis_witness :
    (["Alice", "Bob"] : List String) ≠ [] ∧
    (["Alice", "Bob"] : List String).length <
      (Status.mk ⟨3, 20, []⟩).players.online ∧
    (compose_response survival ⟨⟨3, 20, []⟩⟩ ["Alice", "Bob"]).2 =
      ["Alice", "Bob", "..."] := by
  refine ⟨by decide, by decide, ?_⟩
  exact ((compose_response_ellipsis survival ⟨⟨3, 20, []⟩⟩
    ["Alice", "Bob"]).1 (by decide) (by decide)).1

/-- C9: with at least one player online, the composer mutates the caller's
list: an empty list gains "Anonymous Player" and a non-empty list shorter
than the online count gains "...". -/
theorem compose_response_mutates_names (server : Server) (status : Status)
    (l : List String) (h : 1 ≤ status.players.online) :
    (l = [] →
      (compose_response server status l).2 = l ++ ["Anonymous Player"]) ∧
    (l ≠ [] → l.length < status.players.online →
      (compose_response server status l).2 = l ++ ["..."]) := by
  constructor
  · intro hl
    subst hl
    rw [compose_empty server status (by omega)]
    rfl
  · intro hne hlt
    rw [compose_incomplete server status l (by omega) hne hlt]

/-- Witness for C9 at a concrete input with 2 players online. -/
theorem compose_response_mutates_names_witness :
    1 ≤ (Status.mk ⟨2, 10, []⟩).players.online ∧
    (compose_response survival ⟨⟨2, 10, []⟩⟩ []).2 =
      [] ++ ["Anonymous Player"] := by
  refine ⟨by decide, ?_⟩
  exact (compose_response_mutates_names survival ⟨⟨2, 10, []⟩⟩ []
    (by decide)).1 rfl

/-- A concrete environment in which the address lookup itself fails. -/
def env_lookup_fails : Env :=
  ⟨.error "gaierror", fun _ => .error .timeout, .error .timeout⟩

/-- Witness for C10: a concrete lookup failure propagates out of
`get_server_info`. -/
theorem get_server_info_lookup_propagates_witness :
    env_lookup_fails.lookupResult = .error "gaierror" ∧
    get_server_info env_lookup_fails survival = .error "gaierror" :=
  ⟨rfl, get_server_info_lookup_propagates env_lookup_fails survival
    "gaierror" rfl⟩

/-- C7: `get_server_from_channel` misses (raises `ValueError`, modelled as
`none`) exactly when no registry entry's channel list contains the id, and a
hit is the first matching entry in registry order. -/
theorem get_server_from_channel_first_match (cid : Int) :
    (get_server_from_channel cid = none ↔
      ∀ s ∈ servers, cid ∉ s.channels) ∧
    (∀ s, get_server_from_channel cid = some s →
      cid ∈ s.channels ∧
      ∃ l1 l2, servers = l1 ++ s :: l2 ∧ ∀ t ∈ l1, cid ∉ t.channels) :=
  ⟨find_server_by_channel_none_iff servers cid,
    fun s h => find_server_by_channel_some servers cid s h⟩

/-- Witness for C7: channel `930585547842404372` resolves to the Survival
entry, the first match in registry order. -/
theorem get_server_from_channel_first_match_witness :
    get_server_from_channel 930585547842404372 = some survival ∧
    (930585547842404372 : Int) ∈ survival.channels ∧
    ∃ l1 l2, servers = l1 ++ survival :: l2 ∧
      ∀ t ∈ l1, (930585547842404372 : Int) ∉ t.channels := by
  refine ⟨by decide, ?_⟩
  exact (get_server_from_channel_first_match 930585547842404372).2 survival
    (by decide)

/-- C8: with enhanced query supported and a successful nonzero status, an
enhanced-query timeout or an empty enhanced result makes the handler compose
from the basic status sample with "Anonymous Player" entries removed, while
a non-empty enhanced result is composed as-is. -/
theorem send_data_enhanced_query_fallback (env : Env) (srv : Server)
    (status : Status) (hq : srv.supports_querying = true)
    (hst : get_server_info env srv = .ok (some status))
    (hon : status.players.online ≠ 0) :
    ((env.queryResult = .error .timeout ∨ env.queryResult = .ok []) →
      handle_with_server env srv =
        .reply (compose_response srv status
          ((status.players.sample.filter
            (fun i => i.name ≠ "Anonymous Player")).map
              SamplePlayer.name)).1) ∧
    (∀ l, l ≠ [] → env.queryResult = .ok l →
      handle_with_server env srv =
        .reply (compose_response srv status l).1) := by
  constructor
  · rintro (hto | hemp)
    · simp [handle_with_server, hst, hon, hq, get_players_query, hto]
    · simp [handle_with_server, hst, hon, hq, get_players_query, hemp]
  · intro l hl hok
    simp [handle_with_server, hst, hon, hq, get_players_query, hok,
      List.length_eq_zero, hl]

/-- A server entry supporting the enhanced query (none of the configured
registry entries do, so the enhanced path is exercised on a fresh entry). -/
def query_server : Server := ⟨"QueryTest", "127.0.0.1:25565", [], false, true⟩

/-- A concrete status with two players online, one of them sampled as the
literal "Anonymous Player". -/
def status_two_online : Status :=
  ⟨⟨2, 10, [⟨"Alice"⟩, ⟨"Anonymous Player"⟩]⟩⟩

/-- A concrete environment whose first status attempt succeeds and whose
enhanced query times out. -/
def env_query_timeout : Env :=
  ⟨.ok (), fun _ => .ok status_two_online, .error .timeout⟩

/-- Witness for C8: on an enhanced-query timeout the handler composes from
the sample with the "Anonymous Player" entry removed. -/
theorem send_data_enhanced_query_fallback_witness :
    query_server.supports_querying = true ∧
    get_server_info env_query_timeout query_server =
      .ok (some status_two_online) ∧
    status_two_online.players.online ≠ 0 ∧
    env_query_timeout.queryResult = .error .timeout ∧
    handle_with_server env_query_timeout query_server =
      .reply (compose_response query_server status_two_online ["Alice"]).1 := by
  have hst : get_server_info env_query_timeout query_server =
      .ok (some status_two_online) := by
    have h := status_loop_first_ok env_query_timeout.statusResults 0 0 0
      status_two_online rfl le_rfl (by decide)
      (fun i _ hi => absurd hi (Nat.not_lt_zero i)) rfl
    unfold get_server_info
    rw [h]
    rfl
  refine ⟨rfl, hst, by decide, rfl, ?_⟩
  have h := (send_data_enhanced_query_fallback env_query_timeout query_server
    status_two_online rfl hst (by decide)).1 (Or.inl rfl)
  simpa [status_two_online] using h

/-- C3 counterexample: an address-lookup failure inside the status fetch is
not caught by `send_data` — the invocation ends with a raised exception, not
a user-visible reply. -/
theorem send_data_lookup_error_not_caught_counterexample :
    send_data env_lookup_fails "Default" 930585547842404372 =
      .raised "gaierror" ∧
    (send_data env_lookup_fails "Default"
      930585547842404372).isReply = false := by
  constructor
  · rfl
  · rfl

/-- C3 amended: resolver misses on the "Default" path, status-retry
exhaustion, and enhanced-query timeouts are caught and converted into
user-visible textual replies, but an error raised by the address lookup
inside the status fetch, or a non-timeout enhanced-query error, propagates
out of the handler. -/
theorem send_data_failure_handling_amended (env : Env) (ch : Int)
    (srv : Server) (status : Status) (e : String) :
    (get_server_from_channel ch = none →
      send_data env "Default" ch =
        .reply
          "**You must either select a server or be in a recognised channel**") ∧
    (get_server_from_channel ch = some srv → env.lookupResult = .ok () →
      (∀ i, i < MAX_RETRIES → ∃ er, env.statusResults i = .error er) →
      send_data env "Default" ch =
        .reply "**An unexpected error occurred**") ∧
    (get_server_from_channel ch = some srv → env.lookupResult = .error e →
      send_data env "Default" ch = .raised e) ∧
    (srv.supports_querying = true →
      get_server_info env srv = .ok (some status) →
      status.players.online ≠ 0 →
      env.queryResult = .error (.other e) →
      handle_with_server env srv = .raised e) ∧
    (srv.supports_querying = true →
      get_server_info env srv = .ok (some status) →
      status.players.online ≠ 0 →
      env.queryResult = .error .timeout →
      (handle_with_server env srv).isReply = true) := by
  refine ⟨?_, ?_, ?_, ?_, ?_⟩
  · intro h
    simp [send_data, h]
  · intro hsv hlk hfail
    have hnone : get_server_info env srv = .ok none := by
      have h := status_loop_all_fail env.statusResults MAX_RETRIES 0 rfl
        (fun i _ hi => hfail i hi)
      unfold get_server_info
      rw [hlk, h]
    simp [send_data, hsv, handle_with_server, hnone]
  · intro hsv hlk
    simp [send_data, hsv, handle_with_server, get_server_info, hlk]
  · intro hq hst hon hqr
    simp [handle_with_server, hst, hon, hq, get_players_query, hqr]
  · intro hq hst hon hqr
    simp [handle_with_server, hst, hon, hq, get_players_query, hqr,
      HandlerResult.isReply]

/-- Witness for C3 (amended): a concrete lookup failure on a resolvable
channel escapes `send_data` as a raised error. -/
theorem send_data_failure_handling_amended_witness :
    get_server_from_channel 930585547842404372 = some survival ∧
    env_lookup_fails.lookupResult = .error "gaierror" ∧
    send_data env_lookup_fails "Default" 930585547842404372 =
      .raised "gaierror" := by
  refine ⟨by decide, rfl, ?_⟩
  exact (send_data_failure_handling_amended env_lookup_fails
    930585547842404372 survival ⟨⟨0, 0, []⟩⟩ "gaierror").2.2.1
    (by decide) rfl
